import Mathlib

/-!
Verification of the voice-bot front end (`src/App.js`).

The file gives a shallow embedding of the `App` component: its seven
`useState` hooks, its two refs, the speech-recognition event handlers
(`onstart`, `onresult`, `onerror`, `onend`), the countdown-interval
callback, the two socket handlers (`botResponse`, `error`), the user
handlers (`startListening`, `stopListening`, `handleSubmit`, the text
field `onChange`) and the Send button's `disabled` predicate.  Calls to
the outside world (socket emissions, synthesis utterances, invocations
of `recognition.stop()`) are recorded in ghost trace fields so that
theorems can talk about them.
-/

/-- One entry of a recognition event's result list, as consumed by the
`onresult` handler: `transcript` is `result[0].transcript` (the first
alternative of the result) and `isFinal` is the result's finality flag. -/
structure SpeechResult where
  transcript : String
  isFinal : Bool
deriving DecidableEq, Repr

/-- Whitespace in the sense of ECMAScript `String.prototype.trim`:
WhiteSpace (tab, VT, FF, space, NBSP, BOM, Unicode space separators)
and LineTerminator (LF, CR, LS, PS) code points. -/
def jsIsWhite (c : Char) : Bool :=
  c.toNat = 0x09 || c.toNat = 0x0A || c.toNat = 0x0B || c.toNat = 0x0C ||
  c.toNat = 0x0D || c.toNat = 0x20 || c.toNat = 0xA0 || c.toNat = 0x1680 ||
  (0x2000 ≤ c.toNat && c.toNat ≤ 0x200A) || c.toNat = 0x2028 ||
  c.toNat = 0x2029 || c.toNat = 0x202F || c.toNat = 0x205F ||
  c.toNat = 0x3000 || c.toNat = 0xFEFF

/-- JavaScript `String.prototype.trim`: strip leading and trailing
whitespace. -/
def jsTrim (s : String) : String :=
  String.mk (((s.data.dropWhile jsIsWhite).reverse.dropWhile jsIsWhite).reverse)

/-- The component state of `App`.  The first seven fields are the
`useState` hooks in declaration order (`question`, `response`,
`isListening`, `isLoading`, `error`, `showError`, `timeLeft`).
`intervalArmed` models whether `timeoutRef.current` holds a live
interval; `deviceActive` is the capture device's active flag, which the
component observes through the recognition events (`onstart` marks
activation, `onend` deactivation).  The last three fields are ghost
traces of outgoing calls: `emits` lists the payloads of
`socket.emit('askQuestion', ...)`, `speaks` the texts handed to
`window.speechSynthesis.speak`, and `stopCalls` counts the invocations
of `recognitionRef.current.stop()`. -/
structure AppState where
  question : String
  response : String
  isListening : Bool
  isLoading : Bool
  error : String
  showError : Bool
  timeLeft : Nat
  intervalArmed : Bool
  deviceActive : Bool
  emits : List String
  speaks : List String
  stopCalls : Nat
deriving DecidableEq, Repr

/-- The initial hook values of `App` (lines 19-25): empty strings, all
flags false, `timeLeft = 60`, no interval armed, device inactive. -/
def initState : AppState :=
  { question := "", response := "", isListening := false, isLoading := false
    error := "", showError := false, timeLeft := 60
    intervalArmed := false, deviceActive := false
    emits := [], speaks := [], stopCalls := 0 }

/-- `stopListening` (lines 125-137): call `recognition.stop()`, clear the
countdown interval, `setIsListening(false)`.  Per the Web Speech API,
`stop()` on an inactive recognizer is a no-op and throws nothing, and
`clearInterval` never throws, so the surrounding `catch` is dead; the
device itself deactivates only when it later fires `onend`. -/
def stopListening (s : AppState) : AppState :=
  { s with stopCalls := s.stopCalls + 1
           intervalArmed := false
           isListening := false }

/-- The `onstart` handler (lines 44-58): `setIsListening(true)`,
`setError('')`, `setTimeLeft(60)`, then arm the 1-second countdown
interval.  The device has just become active. -/
def onStart (s : AppState) : AppState :=
  { s with isListening := true, error := "", timeLeft := 60
           intervalArmed := true, deviceActive := true }

/-- One firing of the countdown interval callback (lines 49-57):
`setTimeLeft(prev => ...)` — when the previous value is `<= 1`, call
`stopListening()` and store 0; otherwise store `prev - 1`. -/
def onTick (s : AppState) : AppState :=
  if s.timeLeft ≤ 1 then { stopListening s with timeLeft := 0 }
  else { s with timeLeft := s.timeLeft - 1 }

/-- Lines 61-63: `Array.from(event.results).map(r => r[0].transcript).join('')`. -/
def transcriptOf (results : List SpeechResult) : String :=
  String.join (results.map SpeechResult.transcript)

/-- The `onresult` handler (lines 60-71), on an event whose result list
is `r :: rest` (a recognition event always carries at least one result;
the handler reads `event.results[0]`): join the transcripts of all
results, `setQuestion(transcript)`, then `stopListening()` if and only
if `event.results[0].isFinal`. -/
def onResult (r : SpeechResult) (rest : List SpeechResult) (s : AppState) : AppState :=
  let s1 := { s with question := transcriptOf (r :: rest) }
  if r.isFinal then stopListening s1 else s1

/-- The `onerror` handler (lines 73-78): `setError('Error: ' + kind)`,
`setShowError(true)`, `stopListening()`. -/
def onCaptureError (kind : String) (s : AppState) : AppState :=
  stopListening { s with error := "Error: " ++ kind, showError := true }

/-- The `onend` handler (lines 80-85): `setIsListening(false)` and clear
the interval.  The device session has ended. -/
def onEnd (s : AppState) : AppState :=
  { s with isListening := false, intervalArmed := false, deviceActive := false }

/-- `speakResponse` (lines 139-148), success path: enqueue the utterance
with the synthesis device. -/
def speakResponse (text : String) (s : AppState) : AppState :=
  { s with speaks := s.speaks ++ [text] }

/-- `speakResponse` failure path (catch, lines 143-147): record the
playback error message and show it. -/
def speakFail (s : AppState) : AppState :=
  { s with error := "Failed to speak response. Please try again."
           showError := true }

/-- The `socket.on('botResponse')` handler (lines 88-92):
`setResponse(data)`, `setIsLoading(false)`, `speakResponse(data)`. -/
def onBotResponse (data : String) (s : AppState) : AppState :=
  speakResponse data { s with response := data, isLoading := false }

/-- The `socket.on('error')` handler (lines 94-99):
`setResponse('Error: ' + error)`, `setIsLoading(false)`,
`setError(error)`, `setShowError(true)`. -/
def onSocketError (err : String) (s : AppState) : AppState :=
  { s with response := "Error: " ++ err, isLoading := false
           error := err, showError := true }

/-- `startListening` failure path (catch, lines 118-122): record the
start error message and show it; no interval was armed and no listening
flag was set, since `onstart` never fired. -/
def startListeningFail (s : AppState) : AppState :=
  { s with error := "Failed to start voice recognition. Please try again."
           showError := true }

/-- `handleSubmit` (lines 150-156): after `preventDefault`, if
`question.trim()` is truthy (non-empty once trimmed) then
`setIsLoading(true)` and `socket.emit('askQuestion', question)`;
otherwise nothing.  Note the guard tests only the question text, not
`isLoading`. -/
def handleSubmit (s : AppState) : AppState :=
  if jsTrim s.question ≠ "" then
    { s with isLoading := true, emits := s.emits ++ [s.question] }
  else s

/-- The Send button's `disabled` predicate (line 190):
`!question.trim() || isLoading`. -/
def sendDisabled (s : AppState) : Bool :=
  jsTrim s.question == "" || s.isLoading

/-- A submission attempt through the UI's Send control: a disabled
submit button does nothing, otherwise the form's `handleSubmit` runs. -/
def submitClick (s : AppState) : AppState :=
  if sendDisabled s then s else handleSubmit s

/-- The text field `onChange` handler (line 169):
`setQuestion(e.target.value)`. -/
def handleChange (t : String) (s : AppState) : AppState :=
  { s with question := t }

/-- The user-visible session state: the seven hook values plus whether
the countdown interval is armed — everything except the ghost traces of
outgoing calls and the external device flag. -/
def sessionView (s : AppState) :
    String × String × Bool × Bool × String × Bool × Nat × Bool :=
  (s.question, s.response, s.isListening, s.isLoading, s.error, s.showError,
    s.timeLeft, s.intervalArmed)

/-- The events the component can process: device events (`onstart`,
`onresult`, `onerror`, `onend`), an interval tick, user actions, socket
events, and the failure paths of `startListening` and `speakResponse`. -/
inductive Event where
  | devStart
  | devResult (r : SpeechResult) (rest : List SpeechResult)
  | devError (kind : String)
  | devEnd
  | tick
  | userStartReq
  | userStop
  | userSubmit
  | userType (t : String)
  | botResponse (d : String)
  | sockError (e : String)
  | startFail
  | playbackFail
deriving DecidableEq, Repr

/-- Dispatch one event to its handler.  `userStartReq` (a successful
`recognition.start()` call) changes no component state by itself; the
activation is reported back through the `devStart` event. -/
def applyEvent : Event → AppState → AppState
  | .devStart, s => onStart s
  | .devResult r rest, s => onResult r rest s
  | .devError k, s => onCaptureError k s
  | .devEnd, s => onEnd s
  | .tick, s => onTick s
  | .userStartReq, s => s
  | .userStop, s => stopListening s
  | .userSubmit, s => handleSubmit s
  | .userType t, s => handleChange t s
  | .botResponse d, s => onBotResponse d s
  | .sockError e, s => onSocketError e s
  | .startFail, s => startListeningFail s
  | .playbackFail, s => speakFail s

/-- Which events the environment may deliver in a state, per the device
contract: `onstart` only fires after a `start()` accepted while the
device was inactive; results, capture errors and `onend` only come from
an active session; a tick only fires while the interval is armed. -/
def eventLegal : Event → AppState → Prop
  | .devStart, s => s.deviceActive = false
  | .devResult _ _, s => s.deviceActive = true
  | .devError _, s => s.deviceActive = true
  | .devEnd, s => s.deviceActive = true
  | .tick, s => s.intervalArmed = true
  | _, _ => True

/-- States reachable from the initial hook values by legal events. -/
inductive Reachable : AppState → Prop
  | init : Reachable initState
  | step (s : AppState) (e : Event) : Reachable s → eventLegal e s →
      Reachable (applyEvent e s)

theorem stopListening_intervalArmed (s : AppState) :
    (stopListening s).intervalArmed = false := rfl

theorem reachable_armed_implies_active (s : AppState) (h : Reachable s) :
    s.intervalArmed = true → s.deviceActive = true := by
  induction h with
  | init => simp [initState]
  | step s e hr hl ih =>
    cases e with
    | devStart => simp [applyEvent, onStart]
    | devResult r rest =>
      simp only [applyEvent, onResult]
      split
      · simp [stopListening]
      · simpa using ih
    | devError k => simp [applyEvent, onCaptureError, stopListening]
    | devEnd => simp [applyEvent, onEnd]
    | tick =>
      simp only [applyEvent, onTick]
      split
      · simp [stopListening]
      · simpa using ih
    | userStartReq => simpa using ih
    | userStop => simp [applyEvent, stopListening]
    | userSubmit =>
      simp only [applyEvent, handleSubmit]
      split
      · simpa using ih
      · simpa using ih
    | userType t => simpa using ih
    | botResponse d => simp only [applyEvent, onBotResponse, speakResponse]; simpa using ih
    | sockError e => simp only [applyEvent, onSocketError]; simpa using ih
    | startFail => simp only [applyEvent, startListeningFail]; simpa using ih
    | playbackFail => simp only [applyEvent, speakFail]; simpa using ih

/-- Claim C1, counterexample: in the reachable state obtained by typing
"hi" and submitting once, a request is outstanding (`isLoading` is true)
and no response or error has arrived, yet invoking `handleSubmit` again
performs a second channel send — `emits` grows to `["hi", "hi"]` —
contradicting the claim that no `askQuestion` emission occurs. -/
theorem c1_counterexample :
    (handleSubmit (handleChange "hi" initState)).isLoading = true ∧
    (handleSubmit (handleChange "hi" initState)).emits = ["hi"] ∧
    (handleSubmit (handleSubmit (handleChange "hi" initState))).emits =
      ["hi", "hi"] := by decide

/-- Claim C1 (amended): while a request is outstanding (`isLoading`
true) with non-empty question text, submission through the UI is
rejected — the Send button's `disabled` predicate holds, so a click via
`submitClick` performs no send and no state change — but the raw
`handleSubmit` guards only on non-empty question text, so invoking it
directly does emit `askQuestion`; the session state other than the
emission trace is unchanged (`isLoading` was already true). -/
theorem c1_submit_while_loading (s : AppState) (h : s.isLoading = true)
    (ht : jsTrim s.question ≠ "") :
    sendDisabled s = true ∧ submitClick s = s ∧
    (handleSubmit s).emits = s.emits ++ [s.question] ∧
    (handleSubmit s).question = s.question ∧
    (handleSubmit s).response = s.response ∧
    (handleSubmit s).isLoading = true ∧
    (handleSubmit s).error = s.error ∧
    (handleSubmit s).showError = s.showError := by
  refine ⟨by simp [sendDisabled, h], by simp [submitClick, sendDisabled, h], ?_⟩
  simp [handleSubmit, ht]

/-- Claim C1, witness: the amended theorem at the state reached by
typing "hi" and submitting once. -/
theorem c1_witness :
    sendDisabled (handleSubmit (handleChange "hi" initState)) = true ∧
    submitClick (handleSubmit (handleChange "hi" initState)) =
      handleSubmit (handleChange "hi" initState) ∧
    (handleSubmit (handleSubmit (handleChange "hi" initState))).emits =
      (handleSubmit (handleChange "hi" initState)).emits ++
        [(handleSubmit (handleChange "hi" initState)).question] ∧
    (handleSubmit (handleSubmit (handleChange "hi" initState))).question =
      (handleSubmit (handleChange "hi" initState)).question ∧
    (handleSubmit (handleSubmit (handleChange "hi" initState))).response =
      (handleSubmit (handleChange "hi" initState)).response ∧
    (handleSubmit (handleSubmit (handleChange "hi" initState))).isLoading = true ∧
    (handleSubmit (handleSubmit (handleChange "hi" initState))).error =
      (handleSubmit (handleChange "hi" initState)).error ∧
    (handleSubmit (handleSubmit (handleChange "hi" initState))).showError =
      (handleSubmit (handleChange "hi" initState)).showError :=
  c1_submit_while_loading (handleSubmit (handleChange "hi" initState))
    (by decide) (by decide)

/-- Claim C2, counterexample: the event `[("a", interim), ("b", final)]`
contains a fragment with `isFinal = true`, yet — because the handler
tests only `event.results[0].isFinal` — capture does not terminate:
`stop()` is never invoked, the listening flag stays true, and the
countdown interval stays armed. -/
theorem c2_counterexample :
    (SpeechResult.mk "b" true).isFinal = true ∧
    SpeechResult.mk "b" true ∈
      [SpeechResult.mk "a" false, SpeechResult.mk "b" true] ∧
    (onResult (SpeechResult.mk "a" false) [SpeechResult.mk "b" true]
        (onStart initState)).isListening = true ∧
    (onResult (SpeechResult.mk "a" false) [SpeechResult.mk "b" true]
        (onStart initState)).intervalArmed = true ∧
    (onResult (SpeechResult.mk "a" false) [SpeechResult.mk "b" true]
        (onStart initState)).stopCalls = 0 := by decide

/-- Claim C2 (amended): whenever the FIRST result of the event
(`event.results[0]`) carries `isFinal = true`, the capture phase
terminates — `stop()` is invoked on the device, the listening flag
becomes false, and the countdown interval is cleared; finality of any
later result in the event is ignored. -/
theorem c2_first_final_stops (r : SpeechResult) (rest : List SpeechResult)
    (s : AppState) (h : r.isFinal = true) :
    (onResult r rest s).isListening = false ∧
    (onResult r rest s).intervalArmed = false ∧
    (onResult r rest s).stopCalls = s.stopCalls + 1 := by
  simp [onResult, h, stopListening]

/-- Claim C2, witness: a final first result at the listening state. -/
theorem c2_witness :
    (onResult (SpeechResult.mk "done" true) [] (onStart initState)).isListening
        = false ∧
    (onResult (SpeechResult.mk "done" true) [] (onStart initState)).intervalArmed
        = false ∧
    (onResult (SpeechResult.mk "done" true) [] (onStart initState)).stopCalls =
      (onStart initState).stopCalls + 1 :=
  c2_first_final_stops (SpeechResult.mk "done" true) [] (onStart initState) rfl

/-- Claim C3, counterexample: with capture active (state `onStart` of the
initial state, question "hi"), `handleSubmit` performs the channel send
but does not stop capture — afterwards the listening flag is still true,
the countdown interval is still armed, and no `stop()` was issued to the
device. -/
theorem c3_counterexample :
    (handleChange "hi" (onStart initState)).isListening = true ∧
    (handleSubmit (handleChange "hi" (onStart initState))).emits = ["hi"] ∧
    (handleSubmit (handleChange "hi" (onStart initState))).isListening = true ∧
    (handleSubmit (handleChange "hi" (onStart initState))).intervalArmed = true ∧
    (handleSubmit (handleChange "hi" (onStart initState))).stopCalls = 0 := by
  decide

/-- Claim C3 (amended): submitting non-empty question text never touches
the capture session: `handleSubmit` sends the question and sets the
loading flag, but leaves the listening flag, the countdown interval and
the device stop count exactly as they were — capture is NOT stopped
first. -/
theorem c3_submit_keeps_capture (s : AppState) (h : jsTrim s.question ≠ "") :
    (handleSubmit s).isLoading = true ∧
    (handleSubmit s).emits = s.emits ++ [s.question] ∧
    (handleSubmit s).isListening = s.isListening ∧
    (handleSubmit s).intervalArmed = s.intervalArmed ∧
    (handleSubmit s).stopCalls = s.stopCalls := by
  simp [handleSubmit, h]

/-- Claim C3, witness: submitting "hi" while listening. -/
theorem c3_witness :
    (handleSubmit (handleChange "hi" (onStart initState))).isLoading = true ∧
    (handleSubmit (handleChange "hi" (onStart initState))).emits =
      (handleChange "hi" (onStart initState)).emits ++
        [(handleChange "hi" (onStart initState)).question] ∧
    (handleSubmit (handleChange "hi" (onStart initState))).isListening =
      (handleChange "hi" (onStart initState)).isListening ∧
    (handleSubmit (handleChange "hi" (onStart initState))).intervalArmed =
      (handleChange "hi" (onStart initState)).intervalArmed ∧
    (handleSubmit (handleChange "hi" (onStart initState))).stopCalls =
      (handleChange "hi" (onStart initState)).stopCalls :=
  c3_submit_keeps_capture (handleChange "hi" (onStart initState)) (by decide)

set_option maxRecDepth 4000 in
/-- Claim C4, counterexample: start listening and let the interval fire
60 times — at the 60th firing (previous value 1) the countdown expires
and `stopListening` issues the device `stop()` once; but if a final
fragment arrives in the same tick, its `onresult` handler calls
`stopListening` again, so the device `stop()` is invoked twice, not
exactly once as claimed. -/
theorem c4_counterexample :
    (onTick ((onTick)^[59] (onStart initState))).timeLeft = 0 ∧
    (onTick ((onTick)^[59] (onStart initState))).stopCalls = 1 ∧
    (onResult (SpeechResult.mk "what time is it" true) []
        (onTick ((onTick)^[59] (onStart initState)))).stopCalls = 2 := by
  decide

/-- Claim C4 (amended): when the countdown reaches zero (previous value
`<= 1` at the interval firing) the session transitions to Idle — the
listening flag becomes false, the interval is cleared, `timeLeft` is set
to 0, the device `stop()` is invoked once by the expiry, and no error is
recorded or shown; a final fragment arriving in the same tick causes its
own handler to invoke the (idempotent) device `stop()` a second time. -/
theorem c4_expiry_goes_idle (s : AppState) (h : s.timeLeft ≤ 1) :
    (onTick s).isListening = false ∧
    (onTick s).intervalArmed = false ∧
    (onTick s).timeLeft = 0 ∧
    (onTick s).stopCalls = s.stopCalls + 1 ∧
    (onTick s).error = s.error ∧
    (onTick s).showError = s.showError := by
  simp [onTick, h, stopListening]

/-- Claim C4, witness: the expiring tick at a listening state whose
countdown has reached 1. -/
theorem c4_witness :
    (onTick { onStart initState with timeLeft := 1 }).isListening = false ∧
    (onTick { onStart initState with timeLeft := 1 }).intervalArmed = false ∧
    (onTick { onStart initState with timeLeft := 1 }).timeLeft = 0 ∧
    (onTick { onStart initState with timeLeft := 1 }).stopCalls =
      { onStart initState with timeLeft := 1 }.stopCalls + 1 ∧
    (onTick { onStart initState with timeLeft := 1 }).error =
      { onStart initState with timeLeft := 1 }.error ∧
    (onTick { onStart initState with timeLeft := 1 }).showError =
      { onStart initState with timeLeft := 1 }.showError :=
  c4_expiry_goes_idle { onStart initState with timeLeft := 1 } (by decide)

/-- Claim C5: the `botResponse` handler stores the answer text for
display, clears the loading flag, and invokes playback exactly once with
that text; the `error` handler stores the error for display (in the
response area and in the error banner), clears the loading flag, and
invokes no playback; neither handler emits anything on the channel, so
no automatic retry occurs. -/
theorem c5_resolution_effects (s : AppState) (d e : String) :
    (onBotResponse d s).response = d ∧
    (onBotResponse d s).isLoading = false ∧
    (onBotResponse d s).speaks = s.speaks ++ [d] ∧
    (onBotResponse d s).emits = s.emits ∧
    (onSocketError e s).response = "Error: " ++ e ∧
    (onSocketError e s).error = e ∧
    (onSocketError e s).showError = true ∧
    (onSocketError e s).isLoading = false ∧
    (onSocketError e s).speaks = s.speaks ∧
    (onSocketError e s).emits = s.emits := by
  simp [onBotResponse, speakResponse, onSocketError]

/-- Claim C6: in every reachable state, an armed countdown interval
implies an active capture session — the inconsistent "armed timer with
no active capture" state is unreachable — and each failure handler
leaves the orchestrator consistent: a capture error disarms the
countdown and clears the listening flag while surfacing one message, a
failed `start` and a failed playback touch neither the listening flag
nor the countdown, and a channel error clears the outstanding-request
flag. -/
theorem c6_no_inconsistent_state (s t : AppState) (k e : String)
    (hr : Reachable s) (ha : s.intervalArmed = true) :
    s.deviceActive = true ∧
    (onCaptureError k t).isListening = false ∧
    (onCaptureError k t).intervalArmed = false ∧
    (onCaptureError k t).showError = true ∧
    (startListeningFail t).isListening = t.isListening ∧
    (startListeningFail t).intervalArmed = t.intervalArmed ∧
    (startListeningFail t).showError = true ∧
    (speakFail t).isListening = t.isListening ∧
    (speakFail t).intervalArmed = t.intervalArmed ∧
    (onSocketError e t).isLoading = false :=
  ⟨reachable_armed_implies_active s hr ha,
    by simp [onCaptureError, stopListening],
    by simp [onCaptureError, stopListening],
    by simp [onCaptureError, stopListening],
    by simp [startListeningFail], by simp [startListeningFail],
    by simp [startListeningFail],
    by simp [speakFail], by simp [speakFail],
    by simp [onSocketError]⟩

/-- Claim C6, witness: the reachable state right after `onstart`, whose
interval is armed, together with concrete failure inputs. -/
theorem c6_witness :
    (applyEvent Event.devStart initState).deviceActive = true ∧
    (onCaptureError "no-speech" initState).isListening = false ∧
    (onCaptureError "no-speech" initState).intervalArmed = false ∧
    (onCaptureError "no-speech" initState).showError = true ∧
    (startListeningFail initState).isListening = initState.isListening ∧
    (startListeningFail initState).intervalArmed = initState.intervalArmed ∧
    (startListeningFail initState).showError = true ∧
    (speakFail initState).isListening = initState.isListening ∧
    (speakFail initState).intervalArmed = initState.intervalArmed ∧
    (onSocketError "server down" initState).isLoading = false :=
  c6_no_inconsistent_state (applyEvent Event.devStart initState) initState
    "no-speech" "server down"
    (Reachable.step initState Event.devStart Reachable.init rfl) rfl

/-- Claim C7: after any recognition result event, the displayed question
text equals the concatenation, in order, of the per-result transcripts
of all results present in the event — whether or not the event was
final. -/
theorem c7_question_is_join (r : SpeechResult) (rest : List SpeechResult)
    (s : AppState) :
    (onResult r rest s).question =
      String.join ((r :: rest).map SpeechResult.transcript) := by
  cases hf : r.isFinal <;> simp [onResult, transcriptOf, stopListening, hf]

/-- Claim C8, counterexample: a final fragment "hello" is processed
(question becomes "hello", the device is still active until `onend`);
a subsequently delivered fragment "bye" is NOT rejected — the handler
has no finality guard, so the question text changes to "bye". -/
theorem c8_counterexample :
    (SpeechResult.mk "hello" true).isFinal = true ∧
    (onResult (SpeechResult.mk "hello" true) []
        (onStart initState)).question = "hello" ∧
    (onResult (SpeechResult.mk "hello" true) []
        (onStart initState)).deviceActive = true ∧
    (onResult (SpeechResult.mk "bye" false) []
        (onResult (SpeechResult.mk "hello" true) []
          (onStart initState))).question = "bye" := by decide

/-- Claim C8 (amended): the handler applies every delivered result event
regardless of prior finality — a fragment delivered after a final one
replaces the displayed question text just like any other — and no error
is surfaced to the user in either case (the error text and the error
banner are untouched by result processing). -/
theorem c8_every_event_applied (r : SpeechResult) (rest : List SpeechResult)
    (s : AppState) :
    (onResult r rest s).question = transcriptOf (r :: rest) ∧
    (onResult r rest s).error = s.error ∧
    (onResult r rest s).showError = s.showError := by
  cases hf : r.isFinal <;> simp [onResult, stopListening, hf]

/-- Claim C9: on an inactive session (listening flag false, no interval
armed), `stopListening` leaves the entire user-visible session state
unchanged — in particular it raises no user-visible error — and calling
it twice yields the same session state as calling it once.  (The
redundant device `stop()` request it still issues is, per the device
contract, itself a no-op.) -/
theorem c9_stop_idempotent (s : AppState)
    (h1 : s.isListening = false) (h2 : s.intervalArmed = false) :
    sessionView (stopListening s) = sessionView s ∧
    sessionView (stopListening (stopListening s)) =
      sessionView (stopListening s) := by
  constructor <;> simp [stopListening, sessionView, h1, h2]

/-- Claim C9, witness: `stopListening` on the idle initial state. -/
theorem c9_witness :
    sessionView (stopListening initState) = sessionView initState ∧
    sessionView (stopListening (stopListening initState)) =
      sessionView (stopListening initState) :=
  c9_stop_idempotent initState rfl rfl

/-- Claim C10: a recognition result event replaces the entire question
text with the join of that event's transcripts; whatever text was typed
into the field beforehand (any `t`) is discarded, not merged. -/
theorem c10_result_replaces_typed_text (t : String) (r : SpeechResult)
    (rest : List SpeechResult) (s : AppState) :
    (onResult r rest (handleChange t s)).question = transcriptOf (r :: rest) := by
  cases hf : r.isFinal <;> simp [onResult, handleChange, stopListening, hf]
